import Mathlib

/-!
Verification development for the analytical inverse-kinematics solver of
`compas_fab` (`src/compas_fab/backends/ik_analytical/ik_solver.py`) and its
configuration post-processing pipeline.

The frame/transformation algebra (`compas.geometry`) is an external
collaborator of the solver; it is modelled here per spec §3 over exact
rationals: a `Frame` is an origin point with two axis vectors, a
`Transformation` is a 4×4 homogeneous matrix.  Angles are modelled as
rationals, with π a fixed rational constant (no claim depends on its
numeric value).
-/

/-- A 3-component vector of rationals (models `compas.geometry.Point` /
`compas.geometry.Vector`). -/
structure Vec3 where
  x : ℚ
  y : ℚ
  z : ℚ
deriving DecidableEq

/-- Models `compas.geometry.Point`. -/
abbrev Point := Vec3

/-- Cross product of two vectors, used to derive a frame's z-axis
(spec §3: "z-axis derived by cross product"). -/
def Vec3.cross (a b : Vec3) : Vec3 :=
  ⟨a.y * b.z - a.z * b.y, a.z * b.x - a.x * b.z, a.x * b.y - a.y * b.x⟩

/-- Models `compas.geometry.Frame` (spec §3): origin point plus two in-plane
axis vectors; immutable value type. -/
structure Frame where
  point : Point
  xaxis : Vec3
  yaxis : Vec3
deriving DecidableEq

/-- Models `compas.geometry.Transformation` (spec §3): 4×4 homogeneous
matrix representing a rigid-body map, composable and invertible. -/
abbrev Transformation := Matrix (Fin 4) (Fin 4) ℚ

/-- Models `Transformation.from_frame`: the homogeneous matrix whose rotation
columns are the frame's x-axis, y-axis and derived z-axis, and whose
translation column is the frame's origin ("Built from a Frame relative to a
canonical world frame", spec §3). -/
def Transformation.from_frame (f : Frame) : Transformation :=
  !![f.xaxis.x, f.yaxis.x, (f.xaxis.cross f.yaxis).x, f.point.x;
     f.xaxis.y, f.yaxis.y, (f.xaxis.cross f.yaxis).y, f.point.y;
     f.xaxis.z, f.yaxis.z, (f.xaxis.cross f.yaxis).z, f.point.z;
     0, 0, 0, 1]

/-- Models `Frame.from_transformation`: reads the origin and the first two
rotation columns back off the homogeneous matrix. -/
def Frame.from_transformation (T : Transformation) : Frame :=
  { point := ⟨T 0 3, T 1 3, T 2 3⟩
    xaxis := ⟨T 0 0, T 1 0, T 2 0⟩
    yaxis := ⟨T 0 1, T 1 1, T 2 1⟩ }

/-- Models `Transformation.inverse` for the rigid transformations produced by
`Transformation.from_frame` (spec §3: invertible rigid-body map): transposed
rotation block and correspondingly reflected translation. -/
def Transformation.inverse (T : Transformation) : Transformation :=
  !![T 0 0, T 1 0, T 2 0, -(T 0 0 * T 0 3 + T 1 0 * T 1 3 + T 2 0 * T 2 3);
     T 0 1, T 1 1, T 2 1, -(T 0 1 * T 0 3 + T 1 1 * T 1 3 + T 2 1 * T 2 3);
     T 0 2, T 1 2, T 2 2, -(T 0 2 * T 0 3 + T 1 2 * T 1 3 + T 2 2 * T 2 3);
     0, 0, 0, 1]

/-- Models `compas.geometry.Frame.worldXY()`. -/
def Frame.worldXY : Frame :=
  { point := ⟨0, 0, 0⟩, xaxis := ⟨1, 0, 0⟩, yaxis := ⟨0, 1, 0⟩ }

/-- The constant π, modelled as a fixed rational; no claim below depends on
its numeric value, only on it being the same constant throughout. -/
def piQ : ℚ := 3.14159265358979323846

/-- The full turn 2π used by the joint-limit fit. -/
def two_pi : ℚ := 2 * piQ

/-- Models `compas_fab.robots.Configuration` (spec §3): ordered sequence of
joint values plus matching joint names.  All joints of the 6R chain are
revolute, so joint types are not carried. -/
structure Configuration where
  values : List ℚ
  joint_names : List String
deriving DecidableEq

/-- Models `Configuration.from_revolute_values` as used by
`joint_angles_to_configurations`: values only, no names yet. -/
def Configuration.from_revolute_values (values : List ℚ) : Configuration :=
  { values := values, joint_names := [] }

/-- A joint's limits, per spec §6: per-joint (lower, upper) bound in
radians, sourced from the robot's descriptive model. -/
structure JointLimit where
  lower : ℚ
  upper : ℚ
deriving DecidableEq

/-- A configurable joint as consumed by the solver (only its limits are
read: `j.limit.lower`, `j.limit.upper`). -/
structure Joint where
  limit : JointLimit
deriving DecidableEq

/-- The robot collaborator as consumed by `InverseKinematicsSolver`:
configurable joints and names, the base frame derived from a start
configuration, and the optional collision-checking client.
`get_base_frame` is modelled from the spec (§6: "Base/tool frames:
supplied by caller or derived from a start configuration via the robot's
forward-kinematics of non-solved joints"); the collision client is modelled
from the spec (§4.3 step 3) as a per-configuration collision predicate. -/
structure Robot where
  get_configurable_joints : List Joint
  get_configurable_joint_names : List String
  get_base_frame : Configuration → Frame
  client : Option (Configuration → Bool)

/-- State of `InverseKinematicsSolver` (`ik_solver.py`, lines 10-23):
the robot, the per-robot ik function, and the stored base/tool
transformations (already inverted at construction, or absent).  The
source also caches `self.joints` and `self.joint_names`, which are the
robot's configurable joints and names fetched at construction; they are
read here through the robot field. -/
structure InverseKinematicsSolver where
  robot : Robot
  function : Frame → List (Option Configuration)
  base_transformation : Option Transformation
  tool_transformation : Option Transformation

/-- Models `InverseKinematicsSolver.__init__` (lines 14-23): the stored
transformations are the inverses of the given frames' transformations when
present, `None` otherwise. -/
def InverseKinematicsSolver.init (robot : Robot) (function : Frame → List (Option Configuration))
    (base_frame tool_frame : Option Frame) : InverseKinematicsSolver :=
  { robot := robot
    function := function
    base_transformation := base_frame.map (fun f => (Transformation.from_frame f).inverse)
    tool_transformation := tool_frame.map (fun f => (Transformation.from_frame f).inverse) }

/-- Models `update_base_transformation` (lines 25-26): overwrites the stored
base transformation in place. -/
def update_base_transformation (s : InverseKinematicsSolver) (base_frame : Frame) :
    InverseKinematicsSolver :=
  { s with base_transformation := some (Transformation.from_frame base_frame).inverse }

/-- Models `convert_frame_wcf_to_frame_tool0_rcf` (lines 28-34): compose the
target's transformation with the given (already inverted) base and tool
transformations, treating an absent one as the identity. -/
def convert_frame_wcf_to_frame_tool0_rcf (frame_wcf : Frame)
    (base_transformation tool_transformation : Option Transformation) : Frame :=
  let T := Transformation.from_frame frame_wcf
  let T1 := match base_transformation with
    | some B => B * T
    | none => T
  let T2 := match tool_transformation with
    | some Tl => T1 * Tl
    | none => T1
  Frame.from_transformation T2

/-- Modelled from the spec: `fit_within_bounds` of
`compas_fab.backends.ik_analytical` is imported by `ik_solver.py` but its
module is not under `src/`.  Per spec §4.3 step 1 it attempts to bring a
joint value within [lower, upper] by adding/subtracting integer multiples
of 2π, and fails (an `AssertionError`, here `none`) when no multiple lies
within the bounds: while below the lower bound add full turns, while above
the upper bound subtract full turns, then check the bounds. -/
def fit_within_bounds (value lower upper : ℚ) : Option ℚ :=
  let v1 := if value < lower then value + (⌈(lower - value) / two_pi⌉ : ℚ) * two_pi else value
  let v2 := if upper < v1 then v1 - (⌈(v1 - upper) / two_pi⌉ : ℚ) * two_pi else v1
  if lower ≤ v2 ∧ v2 ≤ upper then some v2 else none

/-- The per-slot body of the loop in `try_to_fit_configurations_between_bounds`
(lines 42-52), on the six unpacked joint values: either all six values fit and
the configuration's values are rewritten at once, or the first failure raises
(`AssertionError`), the partially fitted temporaries are discarded and the
slot becomes the sentinel. -/
def fit_values (j1 j2 j3 j4 j5 j6 : Joint) (a1 a2 a3 a4 a5 a6 : ℚ)
    (c : Configuration) : Option Configuration :=
  (fit_within_bounds a1 j1.limit.lower j1.limit.upper).bind fun b1 =>
  (fit_within_bounds a2 j2.limit.lower j2.limit.upper).bind fun b2 =>
  (fit_within_bounds a3 j3.limit.lower j3.limit.upper).bind fun b3 =>
  (fit_within_bounds a4 j4.limit.lower j4.limit.upper).bind fun b4 =>
  (fit_within_bounds a5 j5.limit.lower j5.limit.upper).bind fun b5 =>
  (fit_within_bounds a6 j6.limit.lower j6.limit.upper).bind fun b6 =>
  some { c with values := [b1, b2, b3, b4, b5, b6] }

/-- The effect of the fitting loop on one slot holding a configuration with
six values; on any other value count the loop raises instead (handled by
`fit_loop`, where the unreached fallback here is the sentinel). -/
def fitSlot (j1 j2 j3 j4 j5 j6 : Joint) (c : Configuration) : Option Configuration :=
  match c.values with
  | [a1, a2, a3, a4, a5, a6] => fit_values j1 j2 j3 j4 j5 j6 a1 a2 a3 a4 a5 a6 c
  | _ => none

/-- Pipeline faults: the Python exceptions that can escape the
post-processing statements of `inverse_kinematics`. -/
inductive Err where
  | attributeError
  | valueError
  | typeError
  | indexError
deriving DecidableEq

/-- The `for` loop of `try_to_fit_configurations_between_bounds` (lines
41-52), threading the in-place mutations: a `None` slot raises
`AttributeError` at `c.values` (mutations so far are kept), a slot whose
value list does not unpack into six raises `ValueError`, otherwise the slot
is rewritten or nulled and the loop continues. -/
def fit_loop (j1 j2 j3 j4 j5 j6 : Joint) :
    List (Option Configuration) → List (Option Configuration) × Option Err
  | [] => ([], none)
  | none :: rest => (none :: rest, some .attributeError)
  | some c :: rest =>
    match c.values with
    | [a1, a2, a3, a4, a5, a6] =>
      let r := fit_loop j1 j2 j3 j4 j5 j6 rest
      (fit_values j1 j2 j3 j4 j5 j6 a1 a2 a3 a4 a5 a6 c :: r.1, r.2)
    | _ => (some c :: rest, some .valueError)

/-- Models `try_to_fit_configurations_between_bounds` (lines 37-53): unpack
the six configurable joints (a joint list of any other length raises
`ValueError` at line 41 before the loop), then run the fitting loop. -/
def try_to_fit_configurations_between_bounds (joints : List Joint)
    (configurations : List (Option Configuration)) :
    List (Option Configuration) × Option Err :=
  match joints with
  | [j1, j2, j3, j4, j5, j6] => fit_loop j1 j2 j3 j4 j5 j6 configurations
  | _ => (configurations, some .valueError)

/-- Models `add_joint_names_to_configurations` (lines 55-59): attach a copy
of the solver's joint-name list to every configuration in place; a `None`
slot raises `AttributeError` at the assignment, keeping the mutations made
so far. -/
def add_joint_names_to_configurations (names : List String) :
    List (Option Configuration) → List (Option Configuration) × Option Err
  | [] => ([], none)
  | none :: rest => (none :: rest, some .attributeError)
  | some c :: rest =>
    let r := add_joint_names_to_configurations names rest
    (some { c with joint_names := names } :: r.1, r.2)

/-- Modelled from the spec: `check_configurations_for_collision` lives in the
backend client, which is not under `src/`.  Per spec §4.3 step 3 it
delegates each non-sentinel configuration to the collision predicate and
replaces any flagged configuration with the sentinel. -/
def check_configurations_for_collision (collide : Configuration → Bool)
    (configurations : List (Option Configuration)) : List (Option Configuration) :=
  configurations.map fun slot =>
    match slot with
    | none => none
    | some c => if collide c then none else some c

/-- The `if self.robot.client:` guard of `inverse_kinematics` (lines 99-100):
collision checking runs only when the robot has a client. -/
def check_collision_stage (client : Option (Configuration → Bool))
    (configurations : List (Option Configuration)) : List (Option Configuration) :=
  match client with
  | some collide => check_configurations_for_collision collide configurations
  | none => configurations

/-- The post-processing statements of `inverse_kinematics` (lines 94-100) in
source order — name attachment, then joint-limit fitting, then the guarded
collision check — returning the configuration list together with the first
raised fault, if any. -/
def postProcessSt (s : InverseKinematicsSolver)
    (configurations : List (Option Configuration)) :
    List (Option Configuration) × Option Err :=
  let r1 := add_joint_names_to_configurations s.robot.get_configurable_joint_names configurations
  match r1.2 with
  | some e => (r1.1, some e)
  | none =>
    let r2 := try_to_fit_configurations_between_bounds s.robot.get_configurable_joints r1.1
    match r2.2 with
    | some e => (r2.1, some e)
    | none => (check_collision_stage s.robot.client r2.1, none)

/-- The outcome of an `inverse_kinematics` call: a raised fault, the full
(possibly culled) slot list, or the single slot returned under
`return_closest_to_start`. -/
inductive IKOutcome where
  | fault (e : Err)
  | configs (cs : List (Option Configuration))
  | single (c : Option Configuration)
deriving DecidableEq

/-- Lines 72-74 of `inverse_kinematics`: when a start configuration is
given, derive the base frame from it and overwrite the solver's base
transformation. -/
def solver_after_start (s : InverseKinematicsSolver)
    (start_configuration : Option Configuration) : InverseKinematicsSolver :=
  match start_configuration with
  | some st => update_base_transformation s (s.robot.get_base_frame st)
  | none => s

/-- Line 80 of `inverse_kinematics`: the target frame converted by the raw
product `self.base_transformation * Transformation.from_frame(frame_WCF) *
self.tool_transformation`; an absent stored transformation makes the
product raise `TypeError` (here `none`) — this line does not go through
`convert_frame_wcf_to_frame_tool0_rcf`. -/
def frame_tool0_rcf_of (s : InverseKinematicsSolver) (frame_WCF : Frame) : Option Frame :=
  match s.base_transformation, s.tool_transformation with
  | some B, some Tl =>
      some (Frame.from_transformation (B * Transformation.from_frame frame_WCF * Tl))
  | _, _ => none

/-- Models the closure returned by `inverse_kinematics_function` (lines
62-110): update the base transformation from the start configuration, convert
the target frame, call the per-robot ik function, post-process, then apply
the caller-selected selection policy (`cull_not_working` filters the
sentinels; `return_closest_to_start` returns `configurations[0]`, raising
`IndexError` on an empty list).  Returns the outcome together with the solver
as left behind by the call. -/
def inverse_kinematics (s : InverseKinematicsSolver) (frame_WCF : Frame)
    (start_configuration : Option Configuration)
    (cull_not_working return_closest_to_start : Bool) :
    IKOutcome × InverseKinematicsSolver :=
  let s' := solver_after_start s start_configuration
  match frame_tool0_rcf_of s' frame_WCF with
  | none => (.fault .typeError, s')
  | some frame_tool0_RCF =>
    let configurations := s'.function frame_tool0_RCF
    let r := postProcessSt s' configurations
    match r.2 with
    | some e => (.fault e, s')
    | none =>
      let cs := if cull_not_working then r.1.filter (fun c => c.isSome) else r.1
      if return_closest_to_start then
        match cs with
        | [] => (.fault .indexError, s')
        | c :: _ => (.single c, s')
      else (.configs cs, s')

/-- The raw output of the geometric wrist-point solver
(`inverse_kinematics_spherical_wrist`, imported but not under `src/`):
per spec §4.1 it returns eight joint-angle tuples, here six angle
sequences indexed by the branch index 0-7. -/
structure RawAngles where
  A1 : Fin 8 → ℚ
  A2 : Fin 8 → ℚ
  A3 : Fin 8 → ℚ
  A4 : Fin 8 → ℚ
  A5 : Fin 8 → ℚ
  A6 : Fin 8 → ℚ

/-- Models `joint_angles_to_configurations` (lines 113-114): zip the six
angle sequences into one configuration of revolute values per branch. -/
def joint_angles_to_configurations (A1 A2 A3 A4 A5 A6 : Fin 8 → ℚ) : List Configuration :=
  List.ofFn fun i : Fin 8 =>
    Configuration.from_revolute_values [A1 i, A2 i, A3 i, A4 i, A5 i, A6 i]

/-- Models `ik_staubli_txl60` (lines 117-132), parameterized by the
geometric wrist-point solver it delegates to: fixed characteristic points,
then the per-robot correction loop over all 8 branches, then configuration
assembly. -/
def ik_staubli_txl60
    (inverse_kinematics_spherical_wrist : Point → Point → Point → Point → Frame → RawAngles)
    (frame_rcf : Frame) : List Configuration :=
  let p1 : Point := ⟨0, 0, 375/1000⟩
  let p2 : Point := ⟨0, 20/1000, 775/1000⟩
  let p3 : Point := ⟨450/1000, 20/1000, 775/1000⟩
  let p4 : Point := ⟨520/1000, 20/1000, 775/1000⟩
  let R := inverse_kinematics_spherical_wrist p1 p2 p3 p4 frame_rcf
  let A1 := fun i => -1 * R.A1 i
  let A2 := fun i => R.A2 i + piQ / 2
  let A4 := fun i => R.A4 i * -1
  let A6 := fun i => R.A6 i * -1 + piQ / 2
  joint_angles_to_configurations A1 A2 R.A3 A4 R.A5 A6

/-- Models `ik_abb_irb4600_40_255` (lines 135-151), parameterized by the
geometric wrist-point solver it delegates to. -/
def ik_abb_irb4600_40_255
    (inverse_kinematics_spherical_wrist : Point → Point → Point → Point → Frame → RawAngles)
    (frame_rcf : Frame) : List Configuration :=
  let p1 : Point := ⟨175/1000, 0, 495/1000⟩
  let p2 : Point := ⟨175/1000, 0, 1590/1000⟩
  let p3 : Point := ⟨1446/1000, 0, 1765/1000⟩
  let p4 : Point := ⟨1581/1000, 0, 1765/1000⟩
  let R := inverse_kinematics_spherical_wrist p1 p2 p3 p4 frame_rcf
  let A1 := fun i => -1 * R.A1 i
  let A2 := fun i => R.A2 i + piQ / 2
  let A3 := fun i => R.A3 i - piQ / 2
  let A4 := fun i => -1 * R.A4 i
  let A6 := fun i => -1 * R.A6 i + piQ / 2
  joint_angles_to_configurations A1 A2 A3 A4 R.A5 A6

/-- Claim-side (spec §4.2 wording): the transformation contributed by an
optional frame — its inverse when present, the identity when absent. -/
def optional_inverse (f : Option Frame) : Transformation :=
  match f with
  | some fr => (Transformation.from_frame fr).inverse
  | none => 1

/-- Claim-side (spec §4.3 selection policy wording): joint-space distance as
the sum of absolute angle differences. -/
def joint_space_distance (c ref : Configuration) : ℚ :=
  (List.zipWith (fun a b => |a - b|) c.values ref.values).sum

/-- C2: for every world-frame target frame, the Frame Conversion Layer
(`convert_frame_wcf_to_frame_tool0_rcf`), fed the transformations stored by
`InverseKinematicsSolver.__init__`, produces the flange/tool0 frame as the
composition base⁻¹ · target · tool⁻¹, an absent base or tool transformation
being treated as the identity, and the conversion succeeding in every case. -/
theorem c2_frame_conversion_composes_inverses
    (robot : Robot) (function : Frame → List (Option Configuration))
    (base_frame tool_frame : Option Frame) (frame_wcf : Frame) :
    convert_frame_wcf_to_frame_tool0_rcf frame_wcf
        (InverseKinematicsSolver.init robot function base_frame tool_frame).base_transformation
        (InverseKinematicsSolver.init robot function base_frame tool_frame).tool_transformation
      = Frame.from_transformation
          (optional_inverse base_frame * Transformation.from_frame frame_wcf
            * optional_inverse tool_frame) := by
  cases base_frame <;> cases tool_frame <;>
    simp [convert_frame_wcf_to_frame_tool0_rcf, InverseKinematicsSolver.init,
      optional_inverse, one_mul, mul_one]

/-- C10: converting a frame with both the base and the tool transformation
absent returns the frame itself: the frame-to-transformation-to-frame round
trip with no composition applied is the identity. -/
theorem c10_convert_identity_roundtrip (frame_wcf : Frame) :
    convert_frame_wcf_to_frame_tool0_rcf frame_wcf none none = frame_wcf := rfl

/-- C8: both per-robot wrappers are a fixed affine remap of the geometric
solver's raw output, applied uniformly at every branch index i:
`ik_abb_irb4600_40_255` yields (-a1, a2 + π/2, a3 - π/2, -a4, a5, -a6 + π/2)
and `ik_staubli_txl60` yields (-a1, a2 + π/2, a3, -a4, a5, -a6 + π/2). -/
theorem c8_per_robot_affine_remap
    (core : Point → Point → Point → Point → Frame → RawAngles)
    (frame_rcf : Frame) :
    (ik_abb_irb4600_40_255 core frame_rcf =
      List.ofFn fun i : Fin 8 =>
        Configuration.from_revolute_values
          (letI R := core ⟨175/1000, 0, 495/1000⟩ ⟨175/1000, 0, 1590/1000⟩
              ⟨1446/1000, 0, 1765/1000⟩ ⟨1581/1000, 0, 1765/1000⟩ frame_rcf
           [-(R.A1 i), R.A2 i + piQ / 2, R.A3 i - piQ / 2, -(R.A4 i), R.A5 i,
            -(R.A6 i) + piQ / 2]))
    ∧ (ik_staubli_txl60 core frame_rcf =
      List.ofFn fun i : Fin 8 =>
        Configuration.from_revolute_values
          (letI R := core ⟨0, 0, 375/1000⟩ ⟨0, 20/1000, 775/1000⟩
              ⟨450/1000, 20/1000, 775/1000⟩ ⟨520/1000, 20/1000, 775/1000⟩ frame_rcf
           [-(R.A1 i), R.A2 i + piQ / 2, R.A3 i, -(R.A4 i), R.A5 i,
            -(R.A6 i) + piQ / 2])) := by
  constructor <;>
  · simp only [ik_abb_irb4600_40_255, ik_staubli_txl60, joint_angles_to_configurations]
    congr 1
    funext i
    norm_num [neg_one_mul, mul_neg_one, sub_eq_add_neg]

lemma length_six_destruct (l : List ℚ) (h : l.length = 6) :
    ∃ a1 a2 a3 a4 a5 a6, l = [a1, a2, a3, a4, a5, a6] := by
  rcases l with _ | ⟨a1, _ | ⟨a2, _ | ⟨a3, _ | ⟨a4, _ | ⟨a5, _ | ⟨a6, _ | ⟨a7, t⟩⟩⟩⟩⟩⟩⟩ <;>
    simp_all

/-- The fitting loop on a list of plain (non-sentinel) six-value
configurations raises nothing and acts on every slot independently as
`fitSlot`. -/
lemma fit_loop_map_some (j1 j2 j3 j4 j5 j6 : Joint) (cs : List Configuration)
    (h : ∀ c ∈ cs, c.values.length = 6) :
    fit_loop j1 j2 j3 j4 j5 j6 (cs.map some)
      = (cs.map (fitSlot j1 j2 j3 j4 j5 j6), none) := by
  induction cs with
  | nil => rfl
  | cons c cs ih =>
    obtain ⟨a1, a2, a3, a4, a5, a6, hv⟩ := length_six_destruct c.values (h c (by simp))
    have ih' := ih (fun x hx => h x (by simp [hx]))
    simp [fit_loop, hv, fitSlot, ih']

/-- C4: on a sequence of six-value configurations, the joint-limit-fit step
returns a sequence of the same length in which each slot independently is
either the configuration with all six values rewritten to the fitted values
or the sentinel (the latter exactly when some joint value admits no fit
within its bounds); the sequence is never compacted and a sentinel slot
keeps no partially fitted values. -/
theorem c4_fit_step_slotwise (j1 j2 j3 j4 j5 j6 : Joint) (cs : List Configuration)
    (h : ∀ c ∈ cs, c.values.length = 6) :
    try_to_fit_configurations_between_bounds [j1, j2, j3, j4, j5, j6] (cs.map some)
      = (cs.map (fitSlot j1 j2 j3 j4 j5 j6), none)
    ∧ (cs.map (fitSlot j1 j2 j3 j4 j5 j6)).length = cs.length
    ∧ ∀ c ∈ cs, ∃ a1 a2 a3 a4 a5 a6,
        c.values = [a1, a2, a3, a4, a5, a6]
        ∧ ((fitSlot j1 j2 j3 j4 j5 j6 c = none
            ∧ (fit_within_bounds a1 j1.limit.lower j1.limit.upper = none
              ∨ fit_within_bounds a2 j2.limit.lower j2.limit.upper = none
              ∨ fit_within_bounds a3 j3.limit.lower j3.limit.upper = none
              ∨ fit_within_bounds a4 j4.limit.lower j4.limit.upper = none
              ∨ fit_within_bounds a5 j5.limit.lower j5.limit.upper = none
              ∨ fit_within_bounds a6 j6.limit.lower j6.limit.upper = none))
          ∨ ∃ b1 b2 b3 b4 b5 b6,
              fitSlot j1 j2 j3 j4 j5 j6 c
                  = some { values := [b1, b2, b3, b4, b5, b6], joint_names := c.joint_names }
              ∧ fit_within_bounds a1 j1.limit.lower j1.limit.upper = some b1
              ∧ fit_within_bounds a2 j2.limit.lower j2.limit.upper = some b2
              ∧ fit_within_bounds a3 j3.limit.lower j3.limit.upper = some b3
              ∧ fit_within_bounds a4 j4.limit.lower j4.limit.upper = some b4
              ∧ fit_within_bounds a5 j5.limit.lower j5.limit.upper = some b5
              ∧ fit_within_bounds a6 j6.limit.lower j6.limit.upper = some b6) := by
  refine ⟨?_, by simp, ?_⟩
  · simpa [try_to_fit_configurations_between_bounds] using
      fit_loop_map_some j1 j2 j3 j4 j5 j6 cs h
  · intro c hc
    obtain ⟨a1, a2, a3, a4, a5, a6, hv⟩ := length_six_destruct c.values (h c hc)
    refine ⟨a1, a2, a3, a4, a5, a6, hv, ?_⟩
    rcases Option.eq_none_or_eq_some (fit_within_bounds a1 j1.limit.lower j1.limit.upper) with hf1 | ⟨b1, hf1⟩
    · exact Or.inl ⟨by simp [fitSlot, hv, fit_values, hf1], Or.inl hf1⟩
    rcases Option.eq_none_or_eq_some (fit_within_bounds a2 j2.limit.lower j2.limit.upper) with hf2 | ⟨b2, hf2⟩
    · exact Or.inl ⟨by simp [fitSlot, hv, fit_values, hf1, hf2], Or.inr (Or.inl hf2)⟩
    rcases Option.eq_none_or_eq_some (fit_within_bounds a3 j3.limit.lower j3.limit.upper) with hf3 | ⟨b3, hf3⟩
    · exact Or.inl ⟨by simp [fitSlot, hv, fit_values, hf1, hf2, hf3], Or.inr (Or.inr (Or.inl hf3))⟩
    rcases Option.eq_none_or_eq_some (fit_within_bounds a4 j4.limit.lower j4.limit.upper) with hf4 | ⟨b4, hf4⟩
    · exact Or.inl ⟨by simp [fitSlot, hv, fit_values, hf1, hf2, hf3, hf4],
        Or.inr (Or.inr (Or.inr (Or.inl hf4)))⟩
    rcases Option.eq_none_or_eq_some (fit_within_bounds a5 j5.limit.lower j5.limit.upper) with hf5 | ⟨b5, hf5⟩
    · exact Or.inl ⟨by simp [fitSlot, hv, fit_values, hf1, hf2, hf3, hf4, hf5],
        Or.inr (Or.inr (Or.inr (Or.inr (Or.inl hf5))))⟩
    rcases Option.eq_none_or_eq_some (fit_within_bounds a6 j6.limit.lower j6.limit.upper) with hf6 | ⟨b6, hf6⟩
    · exact Or.inl ⟨by simp [fitSlot, hv, fit_values, hf1, hf2, hf3, hf4, hf5, hf6],
        Or.inr (Or.inr (Or.inr (Or.inr (Or.inr hf6))))⟩
    exact Or.inr ⟨b1, b2, b3, b4, b5, b6,
      by simp [fitSlot, hv, fit_values, hf1, hf2, hf3, hf4, hf5, hf6],
      hf1, hf2, hf3, hf4, hf5, hf6⟩

/-- A joint with limits [-10, 10], wide enough to hold the sample values
below unchanged. -/
def jointWide : Joint := ⟨⟨-10, 10⟩⟩

/-- A sample six-value configuration with all values inside [-10, 10]. -/
def cfgOnes : Configuration := ⟨[1, 1, 1, 1, 1, 1], []⟩

/-- Witness for C4 at a concrete one-element sequence. -/
theorem c4_witness :
    (∀ c ∈ [cfgOnes], c.values.length = 6)
    ∧ (try_to_fit_configurations_between_bounds
          [jointWide, jointWide, jointWide, jointWide, jointWide, jointWide]
          ([cfgOnes].map some)
        = ([cfgOnes].map (fitSlot jointWide jointWide jointWide jointWide jointWide jointWide),
            none)
      ∧ ([cfgOnes].map (fitSlot jointWide jointWide jointWide jointWide jointWide jointWide)).length
          = [cfgOnes].length
      ∧ ∀ c ∈ [cfgOnes], ∃ a1 a2 a3 a4 a5 a6,
          c.values = [a1, a2, a3, a4, a5, a6]
          ∧ ((fitSlot jointWide jointWide jointWide jointWide jointWide jointWide c = none
              ∧ (fit_within_bounds a1 jointWide.limit.lower jointWide.limit.upper = none
                ∨ fit_within_bounds a2 jointWide.limit.lower jointWide.limit.upper = none
                ∨ fit_within_bounds a3 jointWide.limit.lower jointWide.limit.upper = none
                ∨ fit_within_bounds a4 jointWide.limit.lower jointWide.limit.upper = none
                ∨ fit_within_bounds a5 jointWide.limit.lower jointWide.limit.upper = none
                ∨ fit_within_bounds a6 jointWide.limit.lower jointWide.limit.upper = none))
            ∨ ∃ b1 b2 b3 b4 b5 b6,
                fitSlot jointWide jointWide jointWide jointWide jointWide jointWide c
                    = some { values := [b1, b2, b3, b4, b5, b6], joint_names := c.joint_names }
                ∧ fit_within_bounds a1 jointWide.limit.lower jointWide.limit.upper = some b1
                ∧ fit_within_bounds a2 jointWide.limit.lower jointWide.limit.upper = some b2
                ∧ fit_within_bounds a3 jointWide.limit.lower jointWide.limit.upper = some b3
                ∧ fit_within_bounds a4 jointWide.limit.lower jointWide.limit.upper = some b4
                ∧ fit_within_bounds a5 jointWide.limit.lower jointWide.limit.upper = some b5
                ∧ fit_within_bounds a6 jointWide.limit.lower jointWide.limit.upper = some b6)) :=
  ⟨by decide, c4_fit_step_slotwise jointWide jointWide jointWide jointWide jointWide jointWide
      [cfgOnes] (by decide)⟩

/-- Claim-side (spec §4.3 step 1 wording): the joint-limit fit as the spec
describes it, preserving or nulling each slot independently — in particular
a sentinel slot passes through.  The spec presupposes a 6-DOF chain; on any
other joint count the sequence is left untouched (unreachable under the
claims). -/
def spec_joint_limit_fit (joints : List Joint) (cfgs : List (Option Configuration)) :
    List (Option Configuration) :=
  match joints with
  | [j1, j2, j3, j4, j5, j6] => cfgs.map fun slot => slot.bind (fitSlot j1 j2 j3 j4 j5 j6)
  | _ => cfgs

/-- Claim-side (spec §4.3 step 2 wording): bind the joint-name list to every
non-sentinel configuration. -/
def spec_name_attachment (names : List String) (cfgs : List (Option Configuration)) :
    List (Option Configuration) :=
  cfgs.map (Option.map fun c => { c with joint_names := names })

/-- Claim-side (C3's claimed order): joint-limit fitting first, then name
attachment, then the guarded collision filter. -/
def spec_order_post (s : InverseKinematicsSolver) (cfgs : List (Option Configuration)) :
    List (Option Configuration) :=
  check_collision_stage s.robot.client
    (spec_name_attachment s.robot.get_configurable_joint_names
      (spec_joint_limit_fit s.robot.get_configurable_joints cfgs))

/-- A standard six-joint robot fixture with wide limits and no collision
client. -/
def robotStd : Robot :=
  { get_configurable_joints := [jointWide, jointWide, jointWide, jointWide, jointWide, jointWide]
    get_configurable_joint_names :=
      ["joint_1", "joint_2", "joint_3", "joint_4", "joint_5", "joint_6"]
    get_base_frame := fun _ => Frame.worldXY
    client := none }

/-- A solver fixture over `robotStd` with identity base and tool
transformations. -/
def solverStd : InverseKinematicsSolver :=
  { robot := robotStd
    function := fun _ => []
    base_transformation := some 1
    tool_transformation := some 1 }

/-- C3 counterexample: on a raw sequence whose first slot is the sentinel,
the post-processor (which attaches names first) raises `AttributeError`,
while the claimed order (fit first, then names on non-sentinels) completes;
hence the post-processor does not apply its steps in the claimed order. -/
theorem c3_counterexample_order :
    postProcessSt solverStd [none, some cfgOnes]
      ≠ (spec_order_post solverStd [none, some cfgOnes], none) := by
  decide

lemma add_names_map_some (names : List String) (cs : List Configuration) :
    add_joint_names_to_configurations names (cs.map some)
      = ((cs.map fun c => { c with joint_names := names }).map some, none) := by
  induction cs with
  | nil => rfl
  | cons c cs ih => simp [add_joint_names_to_configurations, ih]

lemma bind_map_option (o : Option ℚ) (f : ℚ → Option Configuration)
    (g : Configuration → Configuration) :
    Option.map g (o.bind f) = o.bind fun b => Option.map g (f b) := by
  cases o <;> rfl

/-- Attaching names before fitting acts per slot exactly as fitting first
and attaching names to the surviving configuration. -/
lemma fitSlot_rename (j1 j2 j3 j4 j5 j6 : Joint) (names : List String) (c : Configuration)
    (h : c.values.length = 6) :
    fitSlot j1 j2 j3 j4 j5 j6 { c with joint_names := names }
      = Option.map (fun x => { x with joint_names := names })
          (fitSlot j1 j2 j3 j4 j5 j6 c) := by
  obtain ⟨a1, a2, a3, a4, a5, a6, hv⟩ := length_six_destruct c.values h
  simp [fitSlot, hv, fit_values, bind_map_option]

/-- C3 (amended): the post-processor attaches the joint names to every slot
first and fits joint limits second (the reverse of the claimed order); on a
raw sequence of sentinel-free six-value configurations this is observably
the same as the claimed fit-then-name order followed by the same collision
filter, and no fault is raised. -/
theorem c3_name_attachment_precedes_fit (s : InverseKinematicsSolver)
    (j1 j2 j3 j4 j5 j6 : Joint)
    (hj : s.robot.get_configurable_joints = [j1, j2, j3, j4, j5, j6])
    (cs : List Configuration) (h6 : ∀ c ∈ cs, c.values.length = 6) :
    postProcessSt s (cs.map some) = (spec_order_post s (cs.map some), none) := by
  have hfit := fit_loop_map_some j1 j2 j3 j4 j5 j6
      (cs.map fun c => { c with joint_names := s.robot.get_configurable_joint_names })
      (by
        intro x hx
        simp only [List.mem_map] at hx
        obtain ⟨c, hc, rfl⟩ := hx
        exact h6 c hc)
  simp only [postProcessSt, add_names_map_some, try_to_fit_configurations_between_bounds,
    hj, hfit, spec_order_post, spec_joint_limit_fit, spec_name_attachment]
  congr 2
  simp only [List.map_map]
  refine List.map_congr_left ?_
  intro c hc
  simpa using fitSlot_rename j1 j2 j3 j4 j5 j6 s.robot.get_configurable_joint_names c (h6 c hc)

/-- Witness for C3 (amended) at a concrete solver and sequence. -/
theorem c3_witness :
    solverStd.robot.get_configurable_joints
        = [jointWide, jointWide, jointWide, jointWide, jointWide, jointWide]
    ∧ (∀ c ∈ [cfgOnes], c.values.length = 6)
    ∧ postProcessSt solverStd ([cfgOnes].map some)
        = (spec_order_post solverStd ([cfgOnes].map some), none) :=
  ⟨rfl, by decide,
    c3_name_attachment_precedes_fit solverStd jointWide jointWide jointWide jointWide
      jointWide jointWide rfl [cfgOnes] (by decide)⟩

/-- A malformed configuration with only five joint values. -/
def cfgShort : Configuration := ⟨[1, 1, 1, 1, 1], []⟩

/-- C5 counterexample: with a five-value configuration in the second slot,
the post-processor raises (second component is a fault), yet by that point
configurations have already been mutated — the first slot has been renamed
and fitted and the malformed slot itself renamed — refuting "no
configuration is mutated before the fault propagates" and "rejected before
the joint-limit-fit step runs". -/
theorem c5_counterexample_partial_mutation :
    (postProcessSt solverStd [some cfgOnes, some cfgShort]).2.isSome = true
    ∧ (postProcessSt solverStd [some cfgOnes, some cfgShort]).1
        ≠ [some cfgOnes, some cfgShort] := by
  decide

/-- A slot holding a configuration whose value list does not unpack into six
makes the fitting loop raise. -/
lemma fit_loop_error_of_bad_slot (j1 j2 j3 j4 j5 j6 : Joint)
    (l : List (Option Configuration))
    (h : ∃ c, some c ∈ l ∧ c.values.length ≠ 6) :
    (fit_loop j1 j2 j3 j4 j5 j6 l).2.isSome = true := by
  induction l with
  | nil => simp at h
  | cons slot rest ih =>
    obtain ⟨c, hc, hlen⟩ := h
    cases slot with
    | none => rfl
    | some c0 =>
      by_cases hv6 : c0.values.length = 6
      · obtain ⟨a1, a2, a3, a4, a5, a6, hval⟩ := length_six_destruct c0.values hv6
        have hmem : some c ∈ rest := by
          rcases List.mem_cons.mp hc with hceq | hmem
          · exact absurd (Option.some_injective _ hceq ▸ hv6) hlen
          · exact hmem
        simpa [fit_loop, hval] using ih ⟨c, hmem, hlen⟩
      · rcases hval : c0.values with _ | ⟨a1, _ | ⟨a2, _ | ⟨a3, _ | ⟨a4, _ | ⟨a5, _ |
            ⟨a6, _ | ⟨a7, t⟩⟩⟩⟩⟩⟩⟩ <;>
          simp_all [fit_loop]

/-- The fitting step raises whenever any slot holds a configuration with a
wrong joint-value count (regardless of the joint list's shape). -/
lemma try_to_fit_error_of_bad_slot (joints : List Joint)
    (l : List (Option Configuration))
    (h : ∃ c, some c ∈ l ∧ c.values.length ≠ 6) :
    (try_to_fit_configurations_between_bounds joints l).2.isSome = true := by
  rcases joints with _ | ⟨j1, _ | ⟨j2, _ | ⟨j3, _ | ⟨j4, _ | ⟨j5, _ | ⟨j6, _ | ⟨j7, t⟩⟩⟩⟩⟩⟩⟩ <;>
    first
    | rfl
    | exact fit_loop_error_of_bad_slot _ _ _ _ _ _ l h

/-- When the name-attachment loop completes without raising, it has renamed
every slot's configuration in place. -/
lemma add_names_ok (names : List String) (l : List (Option Configuration))
    (h : (add_joint_names_to_configurations names l).2 = none) :
    (add_joint_names_to_configurations names l).1
      = l.map (Option.map fun c => { c with joint_names := names }) := by
  induction l with
  | nil => rfl
  | cons slot rest ih =>
    cases slot with
    | none => simp [add_joint_names_to_configurations] at h
    | some c =>
      have h' : (add_joint_names_to_configurations names rest).2 = none := by
        simpa [add_joint_names_to_configurations] using h
      simp [add_joint_names_to_configurations, ih h']

/-- C5 (amended): a configuration with a wrong joint-value count makes the
post-processor raise an unpacking fault — but the fault fires inside the
joint-limit-fit step, after name attachment has run, so configurations may
already have been renamed and earlier slots fitted when it propagates; the
caller still receives no configuration list. -/
theorem c5_malformed_faults_in_fit_stage (s : InverseKinematicsSolver)
    (cfgs : List (Option Configuration)) (c : Configuration)
    (hm : some c ∈ cfgs) (hlen : c.values.length ≠ 6) :
    (postProcessSt s cfgs).2.isSome = true := by
  rcases he :
      add_joint_names_to_configurations s.robot.get_configurable_joint_names cfgs with ⟨l1, e1⟩
  cases e1 with
  | some e => simp [postProcessSt, he]
  | none =>
    have hl1 : l1 = cfgs.map (Option.map fun x => { x with
        joint_names := s.robot.get_configurable_joint_names }) := by
      have := add_names_ok s.robot.get_configurable_joint_names cfgs (by rw [he])
      rwa [he] at this
    have hbad : ∃ x, some x ∈ l1 ∧ x.values.length ≠ 6 := by
      refine ⟨{ c with joint_names := s.robot.get_configurable_joint_names }, ?_, hlen⟩
      rw [hl1]
      exact List.mem_map_of_mem _ hm
    have herr := try_to_fit_error_of_bad_slot s.robot.get_configurable_joints l1 hbad
    obtain ⟨e2, he2⟩ := Option.isSome_iff_exists.mp herr
    simp [postProcessSt, he, he2]

/-- Witness for C5 (amended) at a concrete malformed sequence. -/
theorem c5_witness :
    some cfgShort ∈ [some cfgOnes, some cfgShort]
    ∧ cfgShort.values.length ≠ 6
    ∧ (postProcessSt solverStd [some cfgOnes, some cfgShort]).2.isSome = true :=
  ⟨by decide, by decide,
    c5_malformed_faults_in_fit_stage solverStd [some cfgOnes, some cfgShort] cfgShort
      (by decide) (by decide)⟩

/-- The solver an `inverse_kinematics` call leaves behind is exactly the one
produced by the start-configuration update at its beginning, whatever the
outcome. -/
lemma ik_solver_after (s : InverseKinematicsSolver) (frame_WCF : Frame)
    (start_configuration : Option Configuration)
    (cull_not_working return_closest_to_start : Bool) :
    (inverse_kinematics s frame_WCF start_configuration
        cull_not_working return_closest_to_start).2
      = solver_after_start s start_configuration := by
  unfold inverse_kinematics
  dsimp only
  repeat' split
  all_goals rfl

/-- A solver fixture with no base transformation stored (no base frame was
given at construction). -/
def solverNoBase : InverseKinematicsSolver :=
  { robot := robotStd
    function := fun _ => []
    base_transformation := none
    tool_transformation := some 1 }

/-- C6 counterexample: calling `inverse_kinematics` with a start
configuration changes the solver's stored base transformation (absent
before the call, present after it), so the stored state is not the same
after the call as before it. -/
theorem c6_counterexample_state_mutation :
    ((inverse_kinematics solverNoBase Frame.worldXY (some cfgOnes) false false).2.base_transformation).isSome
      ≠ solverNoBase.base_transformation.isSome := by
  decide

/-- C6 (amended): `inverse_kinematics` is pure only when called without a
start configuration; with one, it overwrites the solver's stored base
transformation with the inverse of the base frame derived from the start
configuration, and the overwrite persists after the call. -/
theorem c6_base_transformation_update_persists (s : InverseKinematicsSolver)
    (frame_WCF : Frame) (cull_not_working return_closest_to_start : Bool) :
    (inverse_kinematics s frame_WCF none cull_not_working return_closest_to_start).2 = s
    ∧ ∀ st : Configuration,
        (inverse_kinematics s frame_WCF (some st)
            cull_not_working return_closest_to_start).2
          = update_base_transformation s (s.robot.get_base_frame st) := by
  refine ⟨?_, fun st => ?_⟩ <;> rw [ik_solver_after] <;> rfl

/-- Claim-side (spec §5 / §7 wording): the post-processing pipeline with the
collision-filtering step removed entirely — name attachment and joint-limit
fitting only. -/
def post_process_without_collision (s : InverseKinematicsSolver)
    (configurations : List (Option Configuration)) :
    List (Option Configuration) × Option Err :=
  let r1 := add_joint_names_to_configurations s.robot.get_configurable_joint_names configurations
  match r1.2 with
  | some e => (r1.1, some e)
  | none =>
    let r2 := try_to_fit_configurations_between_bounds s.robot.get_configurable_joints r1.1
    match r2.2 with
    | some e => (r2.1, some e)
    | none => (r2.1, none)

/-- C7: when the robot has no collision client, the collision stage passes
every configuration through unchanged, and the whole post-processing
pipeline behaves exactly as if the collision-filtering step did not exist —
in particular the absence of the collaborator raises nothing of its own. -/
theorem c7_no_client_skips_collision (s : InverseKinematicsSolver)
    (h : s.robot.client = none) :
    (∀ cfgs, check_collision_stage s.robot.client cfgs = cfgs)
    ∧ ∀ cfgs, postProcessSt s cfgs = post_process_without_collision s cfgs := by
  constructor
  · intro cfgs
    rw [h]
    rfl
  · intro cfgs
    unfold postProcessSt post_process_without_collision
    dsimp only
    repeat' split
    all_goals simp_all [check_collision_stage]

/-- Witness for C7 at a concrete clientless solver. -/
theorem c7_witness :
    solverStd.robot.client = none
    ∧ postProcessSt solverStd [some cfgOnes]
        = post_process_without_collision solverStd [some cfgOnes] :=
  ⟨rfl, (c7_no_client_skips_collision solverStd rfl).2 [some cfgOnes]⟩

/-- C9: when the post-processing leaves every slot a sentinel and the caller
sets both `cull_not_working` and `return_closest_to_start`, the culled
sequence is empty and the index-0 access raises `IndexError` — the call
returns no configuration. -/
theorem c9_all_sentinel_indexerror (s : InverseKinematicsSolver) (frame_WCF : Frame)
    (start_configuration : Option Configuration) (fr : Frame)
    (processed : List (Option Configuration))
    (hf : frame_tool0_rcf_of (solver_after_start s start_configuration) frame_WCF = some fr)
    (hp : postProcessSt (solver_after_start s start_configuration)
        ((solver_after_start s start_configuration).function fr) = (processed, none))
    (hall : ∀ c ∈ processed, c = none) :
    processed.filter (fun c => c.isSome) = []
    ∧ (inverse_kinematics s frame_WCF start_configuration true true).1
        = .fault .indexError := by
  have hfil : processed.filter (fun c => c.isSome) = [] := by
    rw [List.filter_eq_nil_iff]
    intro a ha
    rw [hall a ha]
    simp
  refine ⟨hfil, ?_⟩
  simp [inverse_kinematics, hf, hp, hfil]

/-- A robot fixture whose collision client flags every configuration. -/
def robotKill : Robot := { robotStd with client := some fun _ => true }

/-- A solver fixture over `robotKill` returning eight in-bound raw
configurations, all of which the collision filter then nulls. -/
def solverKill : InverseKinematicsSolver :=
  { robot := robotKill
    function := fun _ => [some cfgOnes, some cfgOnes, some cfgOnes, some cfgOnes,
      some cfgOnes, some cfgOnes, some cfgOnes, some cfgOnes]
    base_transformation := some 1
    tool_transformation := some 1 }

/-- The converted target frame of the `solverKill` fixture. -/
def frKill : Frame :=
  Frame.from_transformation
    ((1 : Transformation) * Transformation.from_frame Frame.worldXY * 1)

/-- The all-sentinel processed sequence of the `solverKill` fixture. -/
def processedKill : List (Option Configuration) :=
  [none, none, none, none, none, none, none, none]

/-- Witness for C9 at the `solverKill` fixture. -/
theorem c9_witness :
    frame_tool0_rcf_of (solver_after_start solverKill none) Frame.worldXY = some frKill
    ∧ postProcessSt (solver_after_start solverKill none)
        ((solver_after_start solverKill none).function frKill) = (processedKill, none)
    ∧ (∀ c ∈ processedKill, c = none)
    ∧ (processedKill.filter (fun c => c.isSome) = []
        ∧ (inverse_kinematics solverKill Frame.worldXY none true true).1
            = .fault .indexError) :=
  ⟨rfl, by decide, by decide,
    c9_all_sentinel_indexerror solverKill Frame.worldXY none frKill processedKill rfl
      (by decide) (by decide)⟩

/-- The all-zero six-value configuration, used as the start configuration. -/
def cfgZeros : Configuration := ⟨[0, 0, 0, 0, 0, 0], []⟩

/-- A solver fixture whose ik function returns two valid configurations:
slot 0 is `cfgOnes` (joint-space distance 6 from `cfgZeros`), slot 1 is
`cfgZeros` itself (distance 0). -/
def solverTwo : InverseKinematicsSolver :=
  { robot := robotStd
    function := fun _ => [some cfgOnes, some cfgZeros]
    base_transformation := some 1
    tool_transformation := some 1 }

/-- C1 (evaluating the code at the failing input): under
`return_closest_to_start` the call returns slot 0 — the configuration
derived from `cfgOnes` — even though the surviving slot 1 configuration is
strictly closer in joint space to the supplied start configuration, so the
returned configuration is not the one of minimal joint-space distance. -/
theorem c1_closest_to_start_ignores_distance :
    (inverse_kinematics solverTwo Frame.worldXY (some cfgZeros) true true).1
      = .single (some ⟨[1, 1, 1, 1, 1, 1],
          ["joint_1", "joint_2", "joint_3", "joint_4", "joint_5", "joint_6"]⟩)
    ∧ joint_space_distance
        ⟨[0, 0, 0, 0, 0, 0], ["joint_1", "joint_2", "joint_3", "joint_4", "joint_5", "joint_6"]⟩
        cfgZeros
      < joint_space_distance
        ⟨[1, 1, 1, 1, 1, 1], ["joint_1", "joint_2", "joint_3", "joint_4", "joint_5", "joint_6"]⟩
        cfgZeros := by
  constructor
  · decide
  · simp [joint_space_distance, cfgZeros]
    norm_num
